import Mathlib

/-!
Verification development for the sensitive-information report generation
pipeline of the Stellar repository.

The Python sources embedded here:
  * `src/test/demo_sensitive_report.py` — the mock detection result
    (`create_mock_detection_result`) and the four report renderers
    (`generate_html_report`, `generate_json_report`, `generate_csv_report`,
    `generate_txt_report`).
  * `src/internal/plugin/examples/python/hello_plugin.py` — the example
    plugin's `validate` command.

Conventions of the embedding:
  * Python dicts with a fixed field set become structures; dicts used as
    ordered string-keyed maps become association lists `List (String × _)`
    (Python dicts preserve insertion order).
  * Every call to `datetime.now()` (and its `isoformat`/`strftime`
    renderings) is modelled by an explicit `String` parameter, since the
    claims only concern how the timestamp is placed into the output.
    The float `progress` is likewise carried as its rendered string.
  * The renderers return the text they would write to the file; the file
    system interaction and the returned filename are outside the model.
  * JSON values are a `Json` inductive; `json.dump`/`json.loads` of the
    report dict round-trip on this fragment, so claims about "parsing the
    output" are stated on the dumped object itself, and the byte output is
    produced by `jsonDump`, a faithful model of
    `json.dump(report, f, ensure_ascii=False, indent=2)`.
-/

/-- JSON values as produced by the Python scripts (only the fragment the
sources use: strings, non-negative integers, booleans, null, arrays,
string-keyed ordered objects). -/
inductive Json where
  | str : String → Json
  | num : Nat → Json
  | bool : Bool → Json
  | null : Json
  | arr : List Json → Json
  | obj : List (String × Json) → Json
deriving Repr

/-- Ordered-dict lookup, first binding wins (keys are unique in every dict
the sources build). -/
def jsonLookup (kvs : List (String × Json)) (k : String) : Option Json :=
  match kvs with
  | [] => none
  | (k2, v) :: rest => if k2 = k then some v else jsonLookup rest k

/-- Lookup of a key in a JSON object; `none` on non-objects. -/
def Json.lookupKey (j : Json) (k : String) : Option Json :=
  match j with
  | Json.obj kvs => jsonLookup kvs k
  | _ => none

/-- The keys of a JSON object in order; `[]` on non-objects. -/
def jsonTopKeys (j : Json) : List String :=
  match j with
  | Json.obj kvs => kvs.map Prod.fst
  | _ => []

/-- One finding dict, `demo_sensitive_report.py` lines 28–75.  `lineNumber`
is `Option Nat`: `none` models a dict without the key (spec §3: absent for
targets with no line structure); `some 0` models the explicit value `0`. -/
structure Finding where
  id : String
  target : String
  targetType : String
  rule : String
  ruleName : String
  category : String
  riskLevel : String
  pattern : String
  matchedText : String
  context : String
  lineNumber : Option Nat
  filePath : String
  fileSize : Nat
  createdAt : String
deriving Repr, DecidableEq

/-- The `summary` dict, lines 77–89: counts plus two ordered count maps. -/
structure Summary where
  totalFindings : Nat
  riskLevelCount : List (String × Nat)
  categoryCount : List (String × Nat)
deriving Repr, DecidableEq

/-- The detection-result dict, lines 15–94. -/
structure DetectionResult where
  id : String
  projectId : String
  name : String
  targets : List String
  status : String
  startTime : String
  endTime : String
  progress : String
  findings : List Finding
  summary : Summary
  createdAt : String
  updatedAt : String
  totalCount : Nat
  finishCount : Nat
deriving Repr, DecidableEq

/-- First finding literal of the mock (lines 28–43); `now` stands for the
`datetime.now().isoformat()` call producing `createdAt`. -/
def mockFinding1 (now : String) : Finding :=
  { id := "finding1"
    target := "file:///tmp/test_config.conf"
    targetType := "file"
    rule := "api_key_rule"
    ruleName := "API密钥检测"
    category := "api_key"
    riskLevel := "high"
    pattern := "api[_-]?key[\"\x27\x60]*\\s*[:=]\\s*[\"\x27\x60]*([a-z0-9]\x7b32,\x7d)"
    matchedText := "api_key = \x27sk-1234567890abcdef1234567890abcdef\x27"
    context := "# 配置文件\ndatabase_url = \x27mongodb://localhost:27017/testdb\x27\napi_key = \x27sk-1234567890abcdef1234567890abcdef\x27\nsecret_token = \x27abc123def456ghi789jkl012mno345pqr\x27"
    lineNumber := some 3
    filePath := "/tmp/test_config.conf"
    fileSize := 1024
    createdAt := now }

/-- Second finding literal of the mock (lines 44–59). -/
def mockFinding2 (now : String) : Finding :=
  { id := "finding2"
    target := "file:///tmp/test_config.conf"
    targetType := "file"
    rule := "password_rule"
    ruleName := "密码检测"
    category := "password"
    riskLevel := "medium"
    pattern := "password\\s*[:=]\\s*[\"\x27\x60]*([^\"\x27\x60\\s]+)"
    matchedText := "user_password = \x27mypassword123\x27"
    context := "# 用户配置\nuser_name = \x27admin\x27\nuser_password = \x27mypassword123\x27\nuser_email = \x27admin@example.com\x27"
    lineNumber := some 7
    filePath := "/tmp/test_config.conf"
    fileSize := 1024
    createdAt := now }

/-- Third finding literal of the mock (lines 60–75). -/
def mockFinding3 (now : String) : Finding :=
  { id := "finding3"
    target := "https://example.com/api/config"
    targetType := "url"
    rule := "jwt_secret_rule"
    ruleName := "JWT密钥检测"
    category := "jwt_secret"
    riskLevel := "high"
    pattern := "jwt[_-]?secret[\"\x27\x60]*\\s*[:=]\\s*[\"\x27\x60]*([^\"\x27\x60\\s]+)"
    matchedText := "jwt_secret: \x27my-super-secret-jwt-key-2023\x27"
    context := "\x7b\n  \"database\": \"mongodb://localhost:27017\",\n  \"jwt_secret\": \"my-super-secret-jwt-key-2023\",\n  \"debug\": true\n\x7d"
    lineNumber := some 3
    filePath := ""
    fileSize := 0
    createdAt := now }

/-- `create_mock_detection_result` (lines 13–94).  All the distinct
`datetime.now().isoformat()` calls are modelled by the single parameter
`now`; no claim depends on them differing. -/
def create_mock_detection_result (now : String) : DetectionResult :=
  { id := "65a1234567890abcdef12345"
    projectId := "65a9876543210fedcba09876"
    name := "敏感信息检测测试任务"
    targets := ["file:///tmp/test_config.conf", "https://example.com/api/config"]
    status := "completed"
    startTime := now
    endTime := now
    progress := "100.0"
    findings := [mockFinding1 now, mockFinding2 now, mockFinding3 now]
    summary :=
      { totalFindings := 3
        riskLevelCount := [("high", 2), ("medium", 1), ("low", 0)]
        categoryCount := [("api_key", 1), ("password", 1), ("jwt_secret", 1)] }
    createdAt := now
    updatedAt := now
    totalCount := 2
    finishCount := 2 }

/-- The shared truncation idiom `s[:thr] + "..." if len(s) > thr else s`
(lines 204, 288, 290, 335, 340; `thr` is the format-specific threshold). -/
def truncateEllipsis (thr : Nat) (s : String) : String :=
  if s.length > thr then s.take thr ++ "..." else s

/-- `finding.get('lineNumber', '-')` interpolated into the HTML row
(line 205). -/
def htmlLineNumber : Option Nat → String
  | some n => toString n
  | none => "-"

/-- `finding.get('lineNumber', '')` stringified by the CSV writer
(line 289). -/
def csvLineNumber : Option Nat → String
  | some n => toString n
  | none => ""

/-- `"-" * 65`, the TXT separator (lines 326, 343). -/
def dashes65 : String := String.mk (List.replicate 65 ('-'))

/-- The 64-character `=` banner line of the TXT header (lines 301, 303). -/
def equals64 : String := String.mk (List.replicate 64 ('='))

/-- One line of the TXT risk-level distribution, line 319. -/
def txt_risk_line (p : String × Nat) : String :=
  "    " ++ p.1 ++ ": " ++ toString p.2 ++ "\n"

/-- One line of the TXT category distribution, line 323. -/
def txt_category_line (p : String × Nat) : String :=
  "    " ++ p.1 ++ ": " ++ toString p.2 ++ "\n"

/-- The conditional `行号` line of a TXT finding block (lines 337–338):
emitted only when `finding.get('lineNumber')` is truthy, i.e. present and
non-zero. -/
def txt_line_number_part (f : Finding) : String :=
  match f.lineNumber with
  | some n => if n = 0 then "" else "  行号: " ++ toString n ++ "\n"
  | none => ""

/-- The conditional `上下文` line of a TXT finding block (lines 339–341):
emitted only when the context is non-empty, truncated at 300. -/
def txt_context_part (f : Finding) : String :=
  if f.context = "" then "" else "  上下文: " ++ truncateEllipsis 300 f.context ++ "\n"

/-- One `发现 #i` block of the TXT report (lines 328–343). -/
def txt_finding_block (i : Nat) (f : Finding) : String :=
  "发现 #" ++ toString i ++ ":\n" ++
  "  目标: " ++ f.target ++ "\n" ++
  "  类型: " ++ f.targetType ++ "\n" ++
  "  规则: " ++ f.ruleName ++ "\n" ++
  "  风险等级: " ++ f.riskLevel ++ "\n" ++
  "  分类: " ++ f.category ++ "\n" ++
  "  匹配文本: " ++ truncateEllipsis 200 f.matchedText ++ "\n" ++
  txt_line_number_part f ++
  txt_context_part f ++
  "  发现时间: " ++ f.createdAt ++ "\n" ++
  dashes65 ++ "\n"

/-- `for i, finding in enumerate(findings, 1)` of the TXT report. -/
def txt_blocks (i : Nat) : List Finding → List String
  | [] => []
  | f :: fs => txt_finding_block i f :: txt_blocks (i + 1) fs

/-- The TXT report text up to and including the `生成时间: ` label
(lines 301–311). -/
def txt_header_before_ts (r : DetectionResult) : String :=
  equals64 ++ "\n" ++
  "                   敏感信息检测报告\n" ++
  equals64 ++ "\n" ++
  "\n" ++
  "检测信息:\n" ++
  "  检测名称: " ++ r.name ++ "\n" ++
  "  项目ID: " ++ r.projectId ++ "\n" ++
  "  开始时间: " ++ r.startTime ++ "\n" ++
  "  结束时间: " ++ r.endTime ++ "\n" ++
  "  检测状态: " ++ r.status ++ "\n" ++
  "  " ++ "生成时间: "

/-- The TXT report text after the generation timestamp (lines 312–343). -/
def txt_after_ts (r : DetectionResult) : String :=
  "\n\n统计摘要:\n" ++
  "  总发现数: " ++ toString r.summary.totalFindings ++ "\n" ++
  "  风险等级分布:\n" ++
  String.join (r.summary.riskLevelCount.map txt_risk_line) ++
  "  分类分布:\n" ++
  String.join (r.summary.categoryCount.map txt_category_line) ++
  "\n详细发现:\n" ++
  dashes65 ++ "\n" ++
  String.join (txt_blocks 1 r.findings)

/-- `generate_txt_report` (lines 299–349); returns the written content,
with the `datetime.now().strftime('%Y-%m-%d %H:%M:%S')` rendering passed
as `genTime`. -/
def generate_txt_report (r : DetectionResult) (genTime : String) : String :=
  txt_header_before_ts r ++ genTime ++ txt_after_ts r

/-- Whether Python's `csv.writer` (QUOTE_MINIMAL) must quote a field:
it contains the delimiter, the quote char, or a line-terminator char. -/
def csvNeedsQuote (s : String) : Bool :=
  s.any (fun c => c = ',' || c = '"' || c = '\n' || c = '\r')

/-- Double an embedded quote char, as `csv.writer` does inside quoted
fields. -/
def csvEscapeChar (c : Char) : String :=
  if c = '"' then "\"\"" else String.singleton c

/-- One CSV field under QUOTE_MINIMAL. -/
def csvField (s : String) : String :=
  if csvNeedsQuote s then "\"" ++ String.join (s.data.map csvEscapeChar) ++ "\"" else s

/-- One `writer.writerow` line: comma-joined fields plus the default
`\r\n` line terminator. -/
def csvRowLine (fields : List String) : String :=
  String.intercalate "," (fields.map csvField) ++ "\r\n"

/-- The CSV header row (lines 273–277). -/
def csv_header_fields : List String :=
  ["序号", "目标", "目标类型", "规则名称", "风险等级", "分类",
   "匹配文本", "行号", "上下文", "发现时间"]

/-- One data row of the CSV report (lines 280–293), already stringified
the way `csv.writer` stringifies ints. -/
def csv_finding_row (i : Nat) (f : Finding) : List String :=
  [toString i, f.target, f.targetType, f.ruleName, f.riskLevel, f.category,
   truncateEllipsis 100 f.matchedText,
   csvLineNumber f.lineNumber,
   truncateEllipsis 150 f.context,
   f.createdAt]

/-- `for i, finding in enumerate(findings, 1)` of the CSV report. -/
def csv_rows (i : Nat) : List Finding → List String
  | [] => []
  | f :: fs => csvRowLine (csv_finding_row i f) :: csv_rows (i + 1) fs

/-- `generate_csv_report` (lines 265–296); returns the written content.
The CSV renderer never reads the clock, so its output is a function of
the result alone. -/
def generate_csv_report (r : DetectionResult) : String :=
  csvRowLine csv_header_fields ++ String.join (csv_rows 1 r.findings)

/-- One finding dict as it is embedded (raw, untruncated) into the JSON
report's `findings` array (line 255); a finding without a line number has
no `lineNumber` key at all. -/
def findingToJson (f : Finding) : Json :=
  Json.obj
    ([("id", Json.str f.id), ("target", Json.str f.target),
      ("targetType", Json.str f.targetType), ("rule", Json.str f.rule),
      ("ruleName", Json.str f.ruleName), ("category", Json.str f.category),
      ("riskLevel", Json.str f.riskLevel), ("pattern", Json.str f.pattern),
      ("matchedText", Json.str f.matchedText), ("context", Json.str f.context)] ++
     (match f.lineNumber with
      | some n => [("lineNumber", Json.num n)]
      | none => []) ++
     [("filePath", Json.str f.filePath), ("fileSize", Json.num f.fileSize),
      ("createdAt", Json.str f.createdAt)])

/-- Key insertion of a Python dict comprehension: first occurrence fixes
the position, later duplicates are collapsed. -/
def insertKey (acc : List String) (t : String) : List String :=
  if t ∈ acc then acc else acc ++ [t]

/-- The key sequence of `{target: 1 for target in targets}`. -/
def pyDictKeys (l : List String) : List String :=
  l.foldl insertKey []

/-- `{target: 1 for target in detection_result['targets']}` (line 253):
every distinct target maps to the constant `1`. -/
def targetStatistics (targets : List String) : List (String × Json) :=
  (pyDictKeys targets).map (fun t => (t, Json.num 1))

/-- The `report` dict built by `generate_json_report` (lines 239–256),
before serialization. -/
def json_report_object (r : DetectionResult) (generatedAt : String) : Json :=
  Json.obj
    [("metadata", Json.obj
        [("detectionId", Json.str r.id),
         ("name", Json.str r.name),
         ("projectId", Json.str r.projectId),
         ("generatedAt", Json.str generatedAt),
         ("totalFindings", Json.num r.findings.length),
         ("status", Json.str r.status),
         ("startTime", Json.str r.startTime),
         ("endTime", Json.str r.endTime)]),
     ("summary", Json.obj
        [("riskStatistics", Json.obj (r.summary.riskLevelCount.map (fun p => (p.1, Json.num p.2)))),
         ("categoryStatistics", Json.obj (r.summary.categoryCount.map (fun p => (p.1, Json.num p.2)))),
         ("targetStatistics", Json.obj (targetStatistics r.targets))]),
     ("findings", Json.arr (r.findings.map findingToJson))]

/-- Two-space indentation prefix used by `json.dump(..., indent=2)`. -/
def indentStr (d : Nat) : String := String.join (List.replicate d ("  "))

/-- Lowercase hex digit. -/
def hexDigit (n : Nat) : Char :=
  if n < 10 then Char.ofNat (48 + n) else Char.ofNat (87 + n)

/-- Character escaping of Python's json serializer with
`ensure_ascii=False`: quote, backslash and control characters escaped,
everything else kept verbatim. -/
def jsonEscapeChar (c : Char) : String :=
  if c = '"' then "\\\""
  else if c = '\\' then "\\\\"
  else if c = '\n' then "\\n"
  else if c = '\r' then "\\r"
  else if c = '\t' then "\\t"
  else if c.toNat = 8 then "\\b"
  else if c.toNat = 12 then "\\f"
  else if c.toNat < 32 then
    "\\u00" ++ String.singleton (hexDigit (c.toNat / 16)) ++
    String.singleton (hexDigit (c.toNat % 16))
  else String.singleton c

/-- Escape a whole string for JSON output. -/
def jsonEscape (s : String) : String := String.join (s.data.map jsonEscapeChar)

/-- A JSON string literal. -/
def jsonQuote (s : String) : String := "\"" ++ jsonEscape s ++ "\""

mutual

/-- `json.dump(report, f, ensure_ascii=False, indent=2)` (lines 258–259):
the serialized text of a JSON value at nesting depth `d`. -/
def jsonDump (d : Nat) : Json → String
  | Json.str s => jsonQuote s
  | Json.num n => toString n
  | Json.bool b => if b then "true" else "false"
  | Json.null => "null"
  | Json.arr [] => "[]"
  | Json.arr (x :: xs) =>
      "[\n" ++ jsonDumpArr (d + 1) (x :: xs) ++ "\n" ++ indentStr d ++ "]"
  | Json.obj [] => "\x7b\x7d"
  | Json.obj (kv :: kvs) =>
      "\x7b\n" ++ jsonDumpObj (d + 1) (kv :: kvs) ++ "\n" ++ indentStr d ++ "\x7d"

/-- Comma-and-newline separated array items, each indented to depth `d`. -/
def jsonDumpArr (d : Nat) : List Json → String
  | [] => ""
  | [x] => indentStr d ++ jsonDump d x
  | x :: y :: xs =>
      indentStr d ++ jsonDump d x ++ ",\n" ++ jsonDumpArr d (y :: xs)

/-- Comma-and-newline separated object entries, each indented to depth
`d`, with the `": "` key separator of `json.dump`. -/
def jsonDumpObj (d : Nat) : List (String × Json) → String
  | [] => ""
  | [kv] => indentStr d ++ jsonQuote kv.1 ++ ": " ++ jsonDump d kv.2
  | kv :: kv2 :: kvs =>
      indentStr d ++ jsonQuote kv.1 ++ ": " ++ jsonDump d kv.2 ++ ",\n" ++
      jsonDumpObj d (kv2 :: kvs)

end

/-- `generate_json_report` (lines 237–262); returns the serialized bytes
written to the file, with the `datetime.now().isoformat()` value passed as
`generatedAt`. -/
def generate_json_report (r : DetectionResult) (generatedAt : String) : String :=
  jsonDump 0 (json_report_object r generatedAt)

/-- The example plugin's `validate` command
(`hello_plugin.py` lines 78–89), on a parsed JSON params object. -/
def validate (params : List (String × Json)) : Json :=
  if "name" ∉ params.map Prod.fst then
    Json.obj [("success", Json.bool false),
              ("error", Json.str ("Missing required parameter: name"))]
  else
    Json.obj [("success", Json.bool true)]

/-- Follows the spec's words (§4.5: "Compute `summary` freshly from
`findings`"): the total recomputed from the findings list alone, used to
compare against what the renderers actually emit. -/
def freshTotalFindings (fs : List Finding) : Nat := fs.length

/-- Follows the spec's words (§3: `riskLevelCount` with all three levels
present): the risk-level counts recomputed freshly from the findings
list alone. -/
def freshRiskLevelCount (fs : List Finding) : List (String × Nat) :=
  [("high", (fs.filter (fun f => f.riskLevel == "high")).length),
   ("medium", (fs.filter (fun f => f.riskLevel == "medium")).length),
   ("low", (fs.filter (fun f => f.riskLevel == "low")).length)]

/-- The `<style>` block of the HTML template (lines 105–134); `{{`/`}}`
of the Python f-string are the literal braces below. -/
def htmlCss : String :=
  "    <style>\n" ++
  "        body \x7b font-family: Arial, sans-serif; margin: 20px; background-color: #f5f5f5; \x7d\n" ++
  "        .container \x7b max-width: 1200px; margin: 0 auto; background: white; padding: 20px; border-radius: 8px; box-shadow: 0 2px 4px rgba(0,0,0,0.1); \x7d\n" ++
  "        .header \x7b border-bottom: 2px solid #3498db; padding-bottom: 20px; margin-bottom: 30px; \x7d\n" ++
  "        .title \x7b color: #2c3e50; margin: 0; \x7d\n" ++
  "        .subtitle \x7b color: #7f8c8d; margin: 10px 0 0 0; \x7d\n" ++
  "        .section \x7b margin-bottom: 30px; \x7d\n" ++
  "        .section-title \x7b color: #2c3e50; border-left: 4px solid #3498db; padding-left: 10px; margin-bottom: 15px; \x7d\n" ++
  "        .info-grid \x7b display: grid; grid-template-columns: repeat(auto-fit, minmax(250px, 1fr)); gap: 15px; margin-bottom: 20px; \x7d\n" ++
  "        .info-item \x7b background: #f8f9fa; padding: 15px; border-radius: 4px; border-left: 3px solid #3498db; \x7d\n" ++
  "        .info-label \x7b font-weight: bold; color: #34495e; \x7d\n" ++
  "        .info-value \x7b color: #2c3e50; margin-top: 5px; \x7d\n" ++
  "        .stats-grid \x7b display: grid; grid-template-columns: repeat(auto-fit, minmax(200px, 1fr)); gap: 15px; \x7d\n" ++
  "        .stat-card \x7b background: linear-gradient(135deg, #667eea 0%, #764ba2 100%); color: white; padding: 20px; border-radius: 8px; text-align: center; \x7d\n" ++
  "        .stat-number \x7b font-size: 2em; font-weight: bold; margin-bottom: 5px; \x7d\n" ++
  "        .stat-label \x7b font-size: 0.9em; opacity: 0.9; \x7d\n" ++
  "        .risk-high \x7b background: linear-gradient(135deg, #FF6B6B 0%, #EE5A24 100%); \x7d\n" ++
  "        .risk-medium \x7b background: linear-gradient(135deg, #FFA726 0%, #FB8C00 100%); \x7d\n" ++
  "        .risk-low \x7b background: linear-gradient(135deg, #66BB6A 0%, #43A047 100%); \x7d\n" ++
  "        .findings-table \x7b width: 100%; border-collapse: collapse; margin-top: 15px; \x7d\n" ++
  "        .findings-table th, .findings-table td \x7b padding: 12px; text-align: left; border-bottom: 1px solid #ddd; \x7d\n" ++
  "        .findings-table th \x7b background-color: #3498db; color: white; font-weight: bold; \x7d\n" ++
  "        .findings-table tr:nth-child(even) \x7b background-color: #f2f2f2; \x7d\n" ++
  "        .risk-badge \x7b padding: 4px 8px; border-radius: 12px; font-size: 0.8em; font-weight: bold; color: white; \x7d\n" ++
  "        .risk-badge.high \x7b background-color: #e74c3c; \x7d\n" ++
  "        .risk-badge.medium \x7b background-color: #f39c12; \x7d\n" ++
  "        .risk-badge.low \x7b background-color: #27ae60; \x7d\n" ++
  "        .matched-text \x7b font-family: monospace; background: #f8f9fa; padding: 2px 4px; border-radius: 3px; \x7d\n" ++
  "        .footer \x7b text-align: center; margin-top: 40px; padding-top: 20px; border-top: 1px solid #ddd; color: #7f8c8d; \x7d\n" ++
  "    </style>\n"

/-- HTML template from the start of the document to the `<title>` text
insertion (lines 99–104). -/
def htmlTpl1 : String :=
  "<!DOCTYPE html>\n" ++
  "<html lang=\"zh-CN\">\n" ++
  "<head>\n" ++
  "    <meta charset=\"UTF-8\">\n" ++
  "    <meta name=\"viewport\" content=\"width=device-width, initial-scale=1.0\">\n" ++
  "    <title>敏感信息检测报告 - "

/-- HTML template from after the title to the subtitle's `检测名称: `
label (lines 104–140). -/
def htmlTpl2 : String :=
  "</title>\n" ++
  htmlCss ++
  "</head>\n" ++
  "<body>\n" ++
  "    <div class=\"container\">\n" ++
  "        <div class=\"header\">\n" ++
  "            <h1 class=\"title\">敏感信息检测报告</h1>\n" ++
  "            <p class=\"subtitle\">检测名称: "

/-- HTML template between the generation timestamp and the project id
value (lines 140–148). -/
def htmlTpl3 : String :=
  "</p>\n" ++
  "        </div>\n" ++
  "\n" ++
  "        <div class=\"section\">\n" ++
  "            <h2 class=\"section-title\">检测信息</h2>\n" ++
  "            <div class=\"info-grid\">\n" ++
  "                <div class=\"info-item\">\n" ++
  "                    <div class=\"info-label\">项目ID</div>\n" ++
  "                    <div class=\"info-value\">"

/-- HTML template between the project id and the status value
(lines 149–152). -/
def htmlTpl4 : String :=
  "</div>\n" ++
  "                </div>\n" ++
  "                <div class=\"info-item\">\n" ++
  "                    <div class=\"info-label\">检测状态</div>\n" ++
  "                    <div class=\"info-value\">"

/-- HTML template between the status and the target count (lines
153–156). -/
def htmlTpl5 : String :=
  "</div>\n" ++
  "                </div>\n" ++
  "                <div class=\"info-item\">\n" ++
  "                    <div class=\"info-label\">目标数量</div>\n" ++
  "                    <div class=\"info-value\">"

/-- HTML template between the target count and the progress value
(lines 157–160). -/
def htmlTpl6 : String :=
  "</div>\n" ++
  "                </div>\n" ++
  "                <div class=\"info-item\">\n" ++
  "                    <div class=\"info-label\">完成进度</div>\n" ++
  "                    <div class=\"info-value\">"

/-- HTML template between the progress value and the total-findings
stat card number (lines 160–169). -/
def htmlTpl7 : String :=
  "%</div>\n" ++
  "                </div>\n" ++
  "            </div>\n" ++
  "        </div>\n" ++
  "\n" ++
  "        <div class=\"section\">\n" ++
  "            <h2 class=\"section-title\">统计摘要</h2>\n" ++
  "            <div class=\"stats-grid\">\n" ++
  "                <div class=\"stat-card\">\n" ++
  "                    "

/-- HTML template closing the total-findings stat card (lines 169–171);
the f-string of lines 99–171 ends here. -/
def htmlTpl8 : String :=
  "</div>\n" ++
  "                    <div class=\"stat-label\">总发现数</div>\n" ++
  "                </div>"

/-- One risk-level stat card (lines 176–180). -/
def html_stat_card (p : String × Nat) : String :=
  "\n                <div class=\"stat-card risk-" ++ p.1 ++ "\">\n" ++
  "                    <div class=\"stat-number\">" ++ toString p.2 ++ "</div>\n" ++
  "                    <div class=\"stat-label\">" ++ p.1 ++ " 风险</div>\n" ++
  "                </div>"

/-- The static middle of the HTML template: closing the stats grid and
opening the findings table (lines 182–200). -/
def htmlTpl9 : String :=
  "\n            </div>\n" ++
  "        </div>\n" ++
  "\n" ++
  "        <div class=\"section\">\n" ++
  "            <h2 class=\"section-title\">详细发现</h2>\n" ++
  "            <table class=\"findings-table\">\n" ++
  "                <thead>\n" ++
  "                    <tr>\n" ++
  "                        <th>序号</th>\n" ++
  "                        <th>目标</th>\n" ++
  "                        <th>规则</th>\n" ++
  "                        <th>风险等级</th>\n" ++
  "                        <th>分类</th>\n" ++
  "                        <th>匹配文本</th>\n" ++
  "                        <th>行号</th>\n" ++
  "                    </tr>\n" ++
  "                </thead>\n" ++
  "                <tbody>"

/-- One finding row of the HTML table (lines 203–216), with the 50-char
truncation of line 204 and the `'-'` line-number default of line 205. -/
def html_finding_row (i : Nat) (f : Finding) : String :=
  "\n                    <tr>\n" ++
  "                        <td>" ++ toString i ++ "</td>\n" ++
  "                        <td>" ++ f.target ++ "</td>\n" ++
  "                        <td>" ++ f.ruleName ++ "</td>\n" ++
  "                        <td><span class=\"risk-badge " ++ f.riskLevel ++ "\">" ++ f.riskLevel ++ "</span></td>\n" ++
  "                        <td>" ++ f.category ++ "</td>\n" ++
  "                        <td><code class=\"matched-text\">" ++ truncateEllipsis 50 f.matchedText ++ "</code></td>\n" ++
  "                        <td>" ++ htmlLineNumber f.lineNumber ++ "</td>\n" ++
  "                    </tr>"

/-- `for i, finding in enumerate(findings, 1)` of the HTML report. -/
def html_rows (i : Nat) : List Finding → List String
  | [] => []
  | f :: fs => html_finding_row i f :: html_rows (i + 1) fs

/-- The static tail of the HTML template (lines 218–228). -/
def htmlTpl10 : String :=
  "\n                </tbody>\n" ++
  "            </table>\n" ++
  "        </div>\n" ++
  "\n" ++
  "        <div class=\"footer\">\n" ++
  "            <p>此报告由 Stellar 安全平台自动生成</p>\n" ++
  "        </div>\n" ++
  "    </div>\n" ++
  "</body>\n" ++
  "</html>"

/-- The HTML report text up to and including the subtitle's
`生成时间: ` label (lines 99–140). -/
def html_before_ts (r : DetectionResult) : String :=
  htmlTpl1 ++ r.name ++ htmlTpl2 ++ r.name ++ " | " ++ "生成时间: "

/-- The HTML report text after the generation timestamp (lines 140–228):
detection info, the total card, the risk-level cards (emitted only when
the count is positive, lines 174–180), the findings table, the footer. -/
def html_after_ts (r : DetectionResult) : String :=
  htmlTpl3 ++ r.projectId ++ htmlTpl4 ++ r.status ++ htmlTpl5 ++
  toString r.targets.length ++ htmlTpl6 ++ r.progress ++ htmlTpl7 ++
  "<div class=\"stat-number\">" ++ toString r.summary.totalFindings ++ htmlTpl8 ++
  String.join (r.summary.riskLevelCount.map (fun p => if p.2 > 0 then html_stat_card p else "")) ++
  htmlTpl9 ++
  String.join (html_rows 1 r.findings) ++
  htmlTpl10

/-- `generate_html_report` (lines 97–234); returns the written content,
with the `datetime.now().strftime('%Y-%m-%d %H:%M:%S')` rendering passed
as `genTime`. -/
def generate_html_report (r : DetectionResult) (genTime : String) : String :=
  html_before_ts r ++ genTime ++ html_after_ts r

/-- Does `pat` match at the head of the character list? -/
def matchesAt : List Char → List Char → Bool
  | [], _ => true
  | _ :: _, [] => false
  | p :: ps, c :: cs => p == c && matchesAt ps cs

/-- Does `pat` occur anywhere in the character list? -/
def containsSubAux (pat : List Char) : List Char → Bool
  | [] => matchesAt pat []
  | c :: cs => matchesAt pat (c :: cs) || containsSubAux pat cs

/-- Substring occurrence test on strings (used to state that some text
does NOT appear in a rendered report). -/
def containsSub (s pat : String) : Bool := containsSubAux pat.data s.data

/-- Sum of the counts of an ordered count map. -/
def sumSnd (l : List (String × Nat)) : Nat := (l.map Prod.snd).sum

/-- The third mock finding with its `lineNumber` key removed — the shape
the spec (§3, §6) gives a URL target without a line map.  Used to probe
the per-renderer line-number handling. -/
def urlFindingNoLine : Finding :=
  { mockFinding3 ("2024-01-01T00:00:00") with lineNumber := none }

/-- The first mock finding with an explicit `lineNumber` of `0` (the
other absent-line-number shape named by the spec §3). -/
def zeroLineFinding : Finding :=
  { mockFinding1 ("2024-01-01T00:00:00") with lineNumber := some 0 }

/-- The mock detection result with its findings list replaced by the
single finding that has no line number. -/
def c7Result : DetectionResult :=
  { create_mock_detection_result ("2024-01-01T00:00:00") with
    findings := [urlFindingNoLine] }

/-- The mock detection result carrying a stale cached `summary` that
disagrees with its (unchanged, three-element) findings list. -/
def c2Result : DetectionResult :=
  { create_mock_detection_result ("2024-01-01T00:00:00") with
    summary :=
      { totalFindings := 99
        riskLevelCount := [("high", 97), ("medium", 1), ("low", 1)]
        categoryCount := [("api_key", 99)] } }

/-- A 201-character string, strictly longer than every truncation
threshold of the renderers. -/
def sample201 : String :=
  "0123456789012345678901234567890123456789012345678901234567890123456789" ++
  "0123456789012345678901234567890123456789012345678901234567890123456789" ++
  "012345678901234567890123456789012345678901234567890123456789X"

theorem string_join_nil : String.join [] = "" := rfl

theorem string_foldl_append (l : List String) :
    ∀ a : String, l.foldl (fun r s => r ++ s) a = a ++ String.join l := by
  induction l with
  | nil => intro a; simp [String.join]
  | cons x xs ih =>
      intro a
      have h2 : String.join (x :: xs) = x ++ String.join xs := by
        show List.foldl (fun r s => r ++ s) "" (x :: xs) = _
        rw [List.foldl_cons, ih, String.empty_append]
      show List.foldl (fun r s => r ++ s) a (x :: xs) = _
      rw [List.foldl_cons, ih, h2, String.append_assoc]

theorem string_join_cons (x : String) (xs : List String) :
    String.join (x :: xs) = x ++ String.join xs := by
  show List.foldl (fun r s => r ++ s) "" (x :: xs) = _
  rw [List.foldl_cons, string_foldl_append, String.empty_append]

theorem mem_insertKey (acc : List String) (x t : String) :
    t ∈ insertKey acc x ↔ t ∈ acc ∨ t = x := by
  by_cases h : x ∈ acc
  · simp only [insertKey, if_pos h]
    refine ⟨Or.inl, fun m => ?_⟩
    rcases m with m | e
    · exact m
    · exact e ▸ h
  · simp [insertKey, if_neg h]

theorem mem_foldl_insertKey (l : List String) :
    ∀ (acc : List String) (t : String),
      t ∈ l.foldl insertKey acc ↔ t ∈ acc ∨ t ∈ l := by
  induction l with
  | nil => intro acc t; simp
  | cons x xs ih =>
      intro acc t
      rw [List.foldl_cons, ih, mem_insertKey]
      simp [or_assoc]

theorem mem_pyDictKeys (l : List String) (t : String) :
    t ∈ pyDictKeys l ↔ t ∈ l := by
  rw [pyDictKeys, mem_foldl_insertKey]
  simp

theorem lookup_map_one (keys : List String) (t : String) :
    jsonLookup (keys.map (fun k => (k, Json.num 1))) t =
      if t ∈ keys then some (Json.num 1) else none := by
  induction keys with
  | nil => simp [jsonLookup]
  | cons k ks ih =>
      by_cases h : k = t
      · subst h
        simp [jsonLookup]
      · rw [List.map_cons]
        show jsonLookup ((k, Json.num 1) :: ks.map (fun k => (k, Json.num 1))) t = _
        rw [jsonLookup, if_neg h, ih]
        by_cases h2 : t ∈ ks
        · rw [if_pos h2, if_pos (List.mem_cons_of_mem k h2)]
        · rw [if_neg h2, if_neg (by
            intro hc
            rcases List.mem_cons.mp hc with e | m
            · exact h e.symm
            · exact h2 m)]

theorem join_map_ite_card (l : List (String × Nat)) :
    String.join (l.map (fun p => if p.2 > 0 then html_stat_card p else "")) =
      String.join ((l.filter (fun p => p.2 > 0)).map html_stat_card) := by
  induction l with
  | nil => rfl
  | cons p ps ih =>
      rw [List.map_cons, string_join_cons, ih, List.filter_cons]
      by_cases h : p.2 > 0
      · rw [if_pos h]
        simp [h, string_join_cons]
      · rw [if_neg h]
        simp [h, String.empty_append]

/-- C6: for the detection result the system produces (the mock fixture,
its only constructor), `summary.totalFindings` equals the length of the
findings list, the risk-level counts sum to `totalFindings`, and all
three risk levels are present as keys even where the count is zero. -/
theorem C6_summary_invariants (now : String) :
    (create_mock_detection_result now).summary.totalFindings =
      (create_mock_detection_result now).findings.length ∧
    sumSnd ((create_mock_detection_result now).summary.riskLevelCount) =
      (create_mock_detection_result now).summary.totalFindings ∧
    (create_mock_detection_result now).summary.riskLevelCount.map Prod.fst =
      ["high", "medium", "low"] :=
  ⟨rfl, rfl, rfl⟩

/-- C9: the example plugin's `validate` command answers
`{success: false, error: ...}` exactly when the required parameter
`name` is missing from the parsed params object, and `{success: true}`
exactly otherwise. -/
theorem C9_validate_requires_name (params : List (String × Json)) :
    (validate params =
        Json.obj [("success", Json.bool false),
                  ("error", Json.str ("Missing required parameter: name"))] ↔
      "name" ∉ params.map Prod.fst) ∧
    (validate params = Json.obj [("success", Json.bool true)] ↔
      "name" ∈ params.map Prod.fst) := by
  by_cases h : "name" ∈ params.map Prod.fst
  · rw [validate, if_neg (fun hc => hc h)]
    constructor
    · constructor
      · intro he
        exact absurd he (by simp)
      · intro hn
        exact absurd h hn
    · exact ⟨fun _ => h, fun _ => rfl⟩
  · rw [validate, if_pos h]
    constructor
    · exact ⟨fun _ => h, fun _ => rfl⟩
    · constructor
      · intro he
        exact absurd he (by simp)
      · intro hm
        exact absurd hm h

/-- `matchesAt` only inspects the first `p.length` characters. -/
theorem matchesAt_take (p : List Char) :
    ∀ l : List Char, matchesAt p l = matchesAt p (l.take p.length) := by
  induction p with
  | nil => intro l; rfl
  | cons pc ps ih =>
      intro l
      cases l with
      | nil => rfl
      | cons c cs =>
          show (pc == c && matchesAt ps cs) = _
          rw [List.length_cons, List.take_succ_cons]
          show _ = (pc == c && matchesAt ps (cs.take ps.length))
          rw [← ih cs]

/-- An `n`-character window into `c :: (x ++ y)` needs at most `n - 1`
characters of `y`. -/
theorem take_window (x y : List Char) (c : Char) (n : Nat) :
    (c :: (x ++ y)).take n = (c :: (x ++ y.take (n - 1))).take n := by
  cases n with
  | zero => simp
  | succ m =>
      rw [List.take_succ_cons, List.take_succ_cons]
      rw [List.take_append_eq_append_take, List.take_append_eq_append_take]
      rw [List.take_take]
      have : min (m - x.length) (m + 1 - 1) = m - x.length := by omega
      rw [this]

/-- Chunked absence: `pat` does not occur in `x ++ y` when it occurs
neither in `x` extended by a `pat`-sized window into `y`, nor in `y`
itself.  Lets a no-occurrence fact over a long concatenation be decided
chunk by chunk. -/
theorem aux_not_contains_append (p : List Char) :
    ∀ (x y : List Char),
      containsSubAux p (x ++ y.take (p.length - 1)) = false →
      containsSubAux p y = false →
      containsSubAux p (x ++ y) = false := by
  intro x
  induction x with
  | nil => intro y h1 h2; simpa using h2
  | cons c x2 ih =>
      intro y h1 h2
      rw [List.cons_append] at h1 ⊢
      rw [containsSubAux] at h1 ⊢
      rw [Bool.or_eq_false_iff] at h1 ⊢
      refine ⟨?_, ih y h1.2 h2⟩
      rw [matchesAt_take, take_window, ← matchesAt_take]
      exact h1.1

set_option maxRecDepth 10000 in
set_option maxHeartbeats 1000000 in
/-- C10: the HTML renderer emits a risk-level stat card only for levels
with a strictly positive count (the loop of lines 174–180 filters on
`count > 0`), while the TXT renderer lists every level of
`riskLevelCount` including zero counts (lines 318–319).  On the mock,
whose `low` count is 0, the card region is exactly the `high` and
`medium` cards and the full rendered HTML contains no `low 风险` stat
card text anywhere, while the TXT output does contain the `low: 0`
line. -/
theorem C10_html_drops_zero_cards_txt_keeps_them (r : DetectionResult) (ts : String) :
    (∃ pre post, generate_html_report r ts =
        pre ++ (String.join (((r.summary.riskLevelCount.filter (fun p => p.2 > 0)).map html_stat_card)) ++ post)) ∧
    (∃ pre post, generate_txt_report r ts =
        pre ++ (String.join (r.summary.riskLevelCount.map txt_risk_line) ++ post)) ∧
    (create_mock_detection_result ("T")).summary.riskLevelCount.filter (fun p => p.2 > 0) =
      [("high", 2), ("medium", 1)] ∧
    (create_mock_detection_result ("T")).summary.riskLevelCount.map txt_risk_line =
      ["    high: 2\n", "    medium: 1\n", "    low: 0\n"] ∧
    String.join (((create_mock_detection_result ("T")).summary.riskLevelCount.filter
        (fun p => p.2 > 0)).map html_stat_card) =
      html_stat_card ("high", 2) ++ (html_stat_card ("medium", 1) ++ "") ∧
    containsSub (generate_html_report (create_mock_detection_result ("2024-01-01T00:00:00"))
      ("2024-01-01 00:00:00")) ("low 风险") = false ∧
    containsSub (generate_txt_report (create_mock_detection_result ("2024-01-01T00:00:00"))
      ("2024-01-01 00:00:00")) ("    low: 0\n") = true := by
  refine ⟨?_, ?_, rfl, rfl, by decide, ?_, by decide⟩
  · refine ⟨html_before_ts r ++ ts ++ htmlTpl3 ++ r.projectId ++ htmlTpl4 ++ r.status ++
      htmlTpl5 ++ toString r.targets.length ++ htmlTpl6 ++ r.progress ++ htmlTpl7 ++
      "<div class=\"stat-number\">" ++ toString r.summary.totalFindings ++ htmlTpl8,
      htmlTpl9 ++ String.join (html_rows 1 r.findings) ++ htmlTpl10, ?_⟩
    simp only [generate_html_report, html_after_ts, join_map_ite_card]
    simp only [← String.append_assoc]
  · refine ⟨txt_header_before_ts r ++ ts ++ "\n\n统计摘要:\n" ++ "  总发现数: " ++
      toString r.summary.totalFindings ++ "\n" ++ "  风险等级分布:\n",
      "  分类分布:\n" ++ String.join (r.summary.categoryCount.map txt_category_line) ++
      "\n详细发现:\n" ++ dashes65 ++ "\n" ++ String.join (txt_blocks 1 r.findings), ?_⟩
    simp only [generate_txt_report, txt_after_ts]
    simp only [← String.append_assoc]
  · have hname : (create_mock_detection_result ("2024-01-01T00:00:00")).name =
        "敏感信息检测测试任务" := rfl
    have hproj : (create_mock_detection_result ("2024-01-01T00:00:00")).projectId =
        "65a9876543210fedcba09876" := rfl
    have hstat : (create_mock_detection_result ("2024-01-01T00:00:00")).status =
        "completed" := rfl
    have hprog : (create_mock_detection_result ("2024-01-01T00:00:00")).progress =
        "100.0" := rfl
    have hlen : toString ((create_mock_detection_result ("2024-01-01T00:00:00")).targets.length) =
        "2" := by decide
    have htot : toString ((create_mock_detection_result
        ("2024-01-01T00:00:00")).summary.totalFindings) = "3" := by decide
    have hcards : String.join (((create_mock_detection_result
          ("2024-01-01T00:00:00")).summary.riskLevelCount).map
          (fun p => if p.2 > 0 then html_stat_card p else "")) =
        html_stat_card ("high", 2) ++ (html_stat_card ("medium", 1) ++ "") := by decide
    have hrows : String.join (html_rows 1
          ((create_mock_detection_result ("2024-01-01T00:00:00")).findings)) =
        html_finding_row 1 (mockFinding1 ("2024-01-01T00:00:00")) ++
          (html_finding_row (1+1) (mockFinding2 ("2024-01-01T00:00:00")) ++
            (html_finding_row (1+1+1) (mockFinding3 ("2024-01-01T00:00:00")) ++ "")) := by
      have hf : (create_mock_detection_result ("2024-01-01T00:00:00")).findings =
          [mockFinding1 ("2024-01-01T00:00:00"), mockFinding2 ("2024-01-01T00:00:00"),
           mockFinding3 ("2024-01-01T00:00:00")] := rfl
      rw [hf]
      simp only [html_rows, string_join_cons, string_join_nil]
    simp only [containsSub, generate_html_report, html_before_ts, html_after_ts,
      htmlTpl2, htmlCss, hname, hproj, hstat, hprog, hlen, htot, hcards, hrows,
      String.data_append, List.append_assoc]
    repeat (refine aux_not_contains_append _ _ _ (by decide) ?_)
    decide

/-- C5: on the three-finding mock fixture the summary has
`riskLevelCount = {high: 2, medium: 1, low: 0}` and
`categoryCount = {api_key: 1, password: 1, jwt_secret: 1}`, and the TXT
output carries the `总发现数: 3` total line and the three `发现 #`
blocks in findings order. -/
theorem C5_fixture_summary_and_txt_blocks (now gt : String) :
    (create_mock_detection_result now).summary.riskLevelCount =
      [("high", 2), ("medium", 1), ("low", 0)] ∧
    (create_mock_detection_result now).summary.categoryCount =
      [("api_key", 1), ("password", 1), ("jwt_secret", 1)] ∧
    (∃ pre post, generate_txt_report (create_mock_detection_result now) gt =
        pre ++ ("  总发现数: " ++ ("3" ++ ("\n" ++ post)))) ∧
    (∃ pre, generate_txt_report (create_mock_detection_result now) gt =
        pre ++ (txt_finding_block 1 (mockFinding1 now) ++
          (txt_finding_block 2 (mockFinding2 now) ++
            (txt_finding_block 3 (mockFinding3 now) ++ "")))) ∧
    (∀ (i : Nat) (f : Finding), ∃ tail,
        txt_finding_block i f = ("发现 #" ++ toString i ++ ":\n") ++ tail) := by
  refine ⟨rfl, rfl, ?_, ?_, ?_⟩
  · refine ⟨txt_header_before_ts (create_mock_detection_result now) ++ gt ++ "\n\n统计摘要:\n",
      "  风险等级分布:\n" ++
      String.join ((create_mock_detection_result now).summary.riskLevelCount.map txt_risk_line) ++
      "  分类分布:\n" ++
      String.join ((create_mock_detection_result now).summary.categoryCount.map txt_category_line) ++
      "\n详细发现:\n" ++ dashes65 ++ "\n" ++
      String.join (txt_blocks 1 (create_mock_detection_result now).findings), ?_⟩
    have e0 : (create_mock_detection_result now).summary.totalFindings = 3 := rfl
    have e : toString ((create_mock_detection_result now).summary.totalFindings) = "3" := by
      rw [e0]
      decide
    simp only [generate_txt_report, txt_after_ts, e]
    simp only [← String.append_assoc]
  · refine ⟨txt_header_before_ts (create_mock_detection_result now) ++ gt ++ "\n\n统计摘要:\n" ++
      "  总发现数: " ++ toString ((create_mock_detection_result now).summary.totalFindings) ++ "\n" ++
      "  风险等级分布:\n" ++
      String.join ((create_mock_detection_result now).summary.riskLevelCount.map txt_risk_line) ++
      "  分类分布:\n" ++
      String.join ((create_mock_detection_result now).summary.categoryCount.map txt_category_line) ++
      "\n详细发现:\n" ++ dashes65 ++ "\n", ?_⟩
    have ef : (create_mock_detection_result now).findings =
        [mockFinding1 now, mockFinding2 now, mockFinding3 now] := rfl
    simp only [generate_txt_report, txt_after_ts, ef, txt_blocks, string_join_cons,
      string_join_nil]
    simp only [← String.append_assoc]
  · intro i f
    refine ⟨"  目标: " ++ f.target ++ "\n" ++
      "  类型: " ++ f.targetType ++ "\n" ++
      "  规则: " ++ f.ruleName ++ "\n" ++
      "  风险等级: " ++ f.riskLevel ++ "\n" ++
      "  分类: " ++ f.category ++ "\n" ++
      "  匹配文本: " ++ truncateEllipsis 200 f.matchedText ++ "\n" ++
      txt_line_number_part f ++ txt_context_part f ++
      "  发现时间: " ++ f.createdAt ++ "\n" ++ dashes65 ++ "\n", ?_⟩
    simp only [txt_finding_block]
    simp only [← String.append_assoc]

/-- C2 (amended): the HTML and TXT renderers emit the statistics stored
in the result's cached `summary` field (lines 169, 174, 314, 318), and
the JSON renderer copies the cached risk/category maps (lines 251–252);
only the JSON metadata's `totalFindings` is recomputed from the findings
list (line 245).  Nothing recomputes the summary the spec's way. -/
theorem C2_renderers_read_cached_summary (r : DetectionResult) (t : String) :
    (∃ pre post, generate_txt_report r t =
        pre ++ ("  总发现数: " ++ (toString r.summary.totalFindings ++ ("\n" ++ post)))) ∧
    (∃ pre post, generate_html_report r t =
        pre ++ ("<div class=\"stat-number\">" ++ (toString r.summary.totalFindings ++ post))) ∧
    ((json_report_object r t).lookupKey ("summary")).bind (fun j => j.lookupKey ("riskStatistics")) =
      some (Json.obj (r.summary.riskLevelCount.map (fun p => (p.1, Json.num p.2)))) ∧
    ((json_report_object r t).lookupKey ("metadata")).bind (fun j => j.lookupKey ("totalFindings")) =
      some (Json.num (freshTotalFindings r.findings)) := by
  refine ⟨?_, ?_, rfl, rfl⟩
  · refine ⟨txt_header_before_ts r ++ t ++ "\n\n统计摘要:\n",
      "  风险等级分布:\n" ++
      String.join (r.summary.riskLevelCount.map txt_risk_line) ++
      "  分类分布:\n" ++
      String.join (r.summary.categoryCount.map txt_category_line) ++
      "\n详细发现:\n" ++ dashes65 ++ "\n" ++
      String.join (txt_blocks 1 r.findings), ?_⟩
    simp only [generate_txt_report, txt_after_ts]
    simp only [← String.append_assoc]
  · refine ⟨html_before_ts r ++ t ++ htmlTpl3 ++ r.projectId ++ htmlTpl4 ++ r.status ++
      htmlTpl5 ++ toString r.targets.length ++ htmlTpl6 ++ r.progress ++ htmlTpl7,
      htmlTpl8 ++
      String.join (r.summary.riskLevelCount.map (fun p => if p.2 > 0 then html_stat_card p else "")) ++
      htmlTpl9 ++ String.join (html_rows 1 r.findings) ++ htmlTpl10, ?_⟩
    simp only [generate_html_report, html_after_ts]
    simp only [← String.append_assoc]

/-- Counterexample for C2: a detection result whose cached summary says
99 findings while its findings list has 3; the TXT renderer prints the
cached 99, not the freshly recomputed 3. -/
theorem C2_counterexample :
    (∃ pre post, generate_txt_report c2Result ("2024-01-01 00:00:00") =
        pre ++ ("  总发现数: " ++ ("99" ++ ("\n" ++ post)))) ∧
    c2Result.findings.length = 3 ∧
    freshTotalFindings c2Result.findings = 3 ∧
    (99 : Nat) ≠ 3 := by
  refine ⟨?_, rfl, rfl, by decide⟩
  refine ⟨txt_header_before_ts c2Result ++ "2024-01-01 00:00:00" ++ "\n\n统计摘要:\n",
    "  风险等级分布:\n" ++
    String.join (c2Result.summary.riskLevelCount.map txt_risk_line) ++
    "  分类分布:\n" ++
    String.join (c2Result.summary.categoryCount.map txt_category_line) ++
    "\n详细发现:\n" ++ dashes65 ++ "\n" ++
    String.join (txt_blocks 1 c2Result.findings), ?_⟩
  have e0 : c2Result.summary.totalFindings = 99 := rfl
  have e : toString (c2Result.summary.totalFindings) = "99" := by
    rw [e0]
    decide
  simp only [generate_txt_report, txt_after_ts, e]
  simp only [← String.append_assoc]

/-- C3: `matchedText` is truncated at the format-specific threshold —
50 in the HTML row (line 204), 100 in the CSV row (line 288), 200 in
the TXT block (line 335) — a text of length at most the threshold is
emitted unmodified, a longer one as its first `thr` characters plus
`"..."`, and the JSON renderer embeds `matchedText` untruncated. -/
theorem C3_matched_text_truncation (s : String) (i : Nat) (f : Finding) :
    (s.length ≤ 50 → truncateEllipsis 50 s = s) ∧
    (s.length ≤ 100 → truncateEllipsis 100 s = s) ∧
    (s.length ≤ 200 → truncateEllipsis 200 s = s) ∧
    (∀ thr, thr < s.length → truncateEllipsis thr s = s.take thr ++ "...") ∧
    (∃ pre post, html_finding_row i f =
        pre ++ (truncateEllipsis 50 f.matchedText ++ post)) ∧
    ((csv_finding_row i f).get? 6 = some (truncateEllipsis 100 f.matchedText)) ∧
    (∃ pre post, txt_finding_block i f =
        pre ++ (truncateEllipsis 200 f.matchedText ++ post)) ∧
    ((findingToJson f).lookupKey ("matchedText") = some (Json.str f.matchedText)) := by
  refine ⟨?_, ?_, ?_, ?_, ?_, rfl, ?_, rfl⟩
  · intro h
    rw [truncateEllipsis, if_neg (Nat.not_lt.mpr h)]
  · intro h
    rw [truncateEllipsis, if_neg (Nat.not_lt.mpr h)]
  · intro h
    rw [truncateEllipsis, if_neg (Nat.not_lt.mpr h)]
  · intro thr h
    rw [truncateEllipsis, if_pos h]
  · refine ⟨"\n                    <tr>\n" ++
      "                        <td>" ++ toString i ++ "</td>\n" ++
      "                        <td>" ++ f.target ++ "</td>\n" ++
      "                        <td>" ++ f.ruleName ++ "</td>\n" ++
      "                        <td><span class=\"risk-badge " ++ f.riskLevel ++ "\">" ++ f.riskLevel ++ "</span></td>\n" ++
      "                        <td>" ++ f.category ++ "</td>\n" ++
      "                        <td><code class=\"matched-text\">",
      "</code></td>\n" ++
      "                        <td>" ++ htmlLineNumber f.lineNumber ++ "</td>\n" ++
      "                    </tr>", ?_⟩
    simp only [html_finding_row]
    simp only [← String.append_assoc]
  · refine ⟨"发现 #" ++ toString i ++ ":\n" ++
      "  目标: " ++ f.target ++ "\n" ++
      "  类型: " ++ f.targetType ++ "\n" ++
      "  规则: " ++ f.ruleName ++ "\n" ++
      "  风险等级: " ++ f.riskLevel ++ "\n" ++
      "  分类: " ++ f.category ++ "\n" ++
      "  匹配文本: ",
      "\n" ++ txt_line_number_part f ++ txt_context_part f ++
      "  发现时间: " ++ f.createdAt ++ "\n" ++ dashes65 ++ "\n", ?_⟩
    simp only [txt_finding_block]
    simp only [← String.append_assoc]

set_option maxRecDepth 10000 in
/-- Witness for C3: the truncation conclusions instantiated on concrete
strings on both sides of each threshold. -/
theorem C3_witness :
    truncateEllipsis 50 ("short") = "short" ∧
    truncateEllipsis 100 ("short") = "short" ∧
    truncateEllipsis 200 ("short") = "short" ∧
    truncateEllipsis 50 sample201 = sample201.take 50 ++ "..." ∧
    truncateEllipsis 100 sample201 = sample201.take 100 ++ "..." ∧
    truncateEllipsis 200 sample201 = sample201.take 200 ++ "..." :=
  ⟨(C3_matched_text_truncation ("short") 1 (mockFinding1 ("T"))).1 (by decide),
   (C3_matched_text_truncation ("short") 1 (mockFinding1 ("T"))).2.1 (by decide),
   (C3_matched_text_truncation ("short") 1 (mockFinding1 ("T"))).2.2.1 (by decide),
   (C3_matched_text_truncation sample201 1 (mockFinding1 ("T"))).2.2.2.1 50 (by decide),
   (C3_matched_text_truncation sample201 1 (mockFinding1 ("T"))).2.2.2.1 100 (by decide),
   (C3_matched_text_truncation sample201 1 (mockFinding1 ("T"))).2.2.2.1 200 (by decide)⟩

/-- C7 (amended): the renderers do emit index, target, rule name, risk
level, category and matched text, but their line-number handling
diverges: HTML shows `-` only when the key is absent (and `0` as `0`),
CSV shows the empty string when absent, the TXT renderer omits the
`行号` line entirely whenever the value is absent or `0`
(lines 337–338), and the JSON findings carry the raw `lineNumber` field
(absent when the dict has none) and no index field at all. -/
theorem C7_line_number_divergence (i : Nat) (f : Finding) :
    (f.lineNumber = none →
      htmlLineNumber f.lineNumber = "-" ∧
      csvLineNumber f.lineNumber = "" ∧
      txt_line_number_part f = "") ∧
    (f.lineNumber = some 0 →
      htmlLineNumber f.lineNumber = "0" ∧
      csvLineNumber f.lineNumber = "0" ∧
      txt_line_number_part f = "") ∧
    (∀ n, f.lineNumber = some n → n ≠ 0 →
      txt_line_number_part f = "  行号: " ++ toString n ++ "\n") ∧
    (∃ pre post, html_finding_row i f = pre ++ (htmlLineNumber f.lineNumber ++ post)) ∧
    ((csv_finding_row i f).get? 7 = some (csvLineNumber f.lineNumber)) ∧
    ((findingToJson f).lookupKey ("lineNumber") = f.lineNumber.map Json.num) ∧
    ("index" ∉ jsonTopKeys (findingToJson f)) := by
  refine ⟨?_, ?_, ?_, ?_, rfl, ?_, ?_⟩
  · intro h
    exact ⟨by rw [h]; rfl, by rw [h]; rfl, by rw [txt_line_number_part, h]⟩
  · intro h
    refine ⟨by rw [h]; rfl, by rw [h]; rfl, ?_⟩
    rw [txt_line_number_part, h]
    rfl
  · intro n h hn
    rw [txt_line_number_part, h]
    simp [hn]
  · refine ⟨"\n                    <tr>\n" ++
      "                        <td>" ++ toString i ++ "</td>\n" ++
      "                        <td>" ++ f.target ++ "</td>\n" ++
      "                        <td>" ++ f.ruleName ++ "</td>\n" ++
      "                        <td><span class=\"risk-badge " ++ f.riskLevel ++ "\">" ++ f.riskLevel ++ "</span></td>\n" ++
      "                        <td>" ++ f.category ++ "</td>\n" ++
      "                        <td><code class=\"matched-text\">" ++ truncateEllipsis 50 f.matchedText ++ "</code></td>\n" ++
      "                        <td>",
      "</td>\n" ++ "                    </tr>", ?_⟩
    simp only [html_finding_row]
    simp only [← String.append_assoc]
  · rcases h : f.lineNumber with _ | n
    · rw [findingToJson, h]
      rfl
    · rw [findingToJson, h]
      rfl
  · rcases h : f.lineNumber with _ | n
    · have hk : jsonTopKeys (findingToJson f) =
          ["id", "target", "targetType", "rule", "ruleName", "category", "riskLevel",
           "pattern", "matchedText", "context", "filePath", "fileSize", "createdAt"] := by
        rw [findingToJson, h]
        rfl
      rw [hk]
      decide
    · have hk : jsonTopKeys (findingToJson f) =
          ["id", "target", "targetType", "rule", "ruleName", "category", "riskLevel",
           "pattern", "matchedText", "context", "lineNumber", "filePath", "fileSize",
           "createdAt"] := by
        rw [findingToJson, h]
        rfl
      rw [hk]
      decide

/-- Witness for C7: the line-number conclusions instantiated on concrete
findings — the URL finding without the key, a finding with value `0`,
and the first mock finding with line 3. -/
theorem C7_witness :
    (htmlLineNumber urlFindingNoLine.lineNumber = "-" ∧
     csvLineNumber urlFindingNoLine.lineNumber = "" ∧
     txt_line_number_part urlFindingNoLine = "") ∧
    (htmlLineNumber zeroLineFinding.lineNumber = "0" ∧
     csvLineNumber zeroLineFinding.lineNumber = "0" ∧
     txt_line_number_part zeroLineFinding = "") ∧
    txt_line_number_part (mockFinding1 ("T")) = "  行号: " ++ toString 3 ++ "\n" :=
  ⟨(C7_line_number_divergence 1 urlFindingNoLine).1 rfl,
   (C7_line_number_divergence 1 zeroLineFinding).2.1 rfl,
   (C7_line_number_divergence 1 (mockFinding1 ("T"))).2.2.1 3 rfl (by decide)⟩

set_option maxRecDepth 10000 in
/-- Counterexample for C7: rendering a result whose only finding lacks a
line number, the TXT report contains no `行号` entry at all — no
placeholder is emitted — while the same renderer does print `行号` lines
for the original mock findings. -/
theorem C7_counterexample :
    containsSub (generate_txt_report c7Result ("2024-01-01 00:00:00")) ("行号") = false ∧
    containsSub
      (generate_txt_report (create_mock_detection_result ("2024-01-01T00:00:00"))
        ("2024-01-01 00:00:00")) ("行号") = true := by
  constructor
  · decide
  · decide

/-- C1 (amended): the JSON renderer's `targetStatistics` maps each
distinct target URI of the result's target list to the constant `1` — a
presence marker produced by `{target: 1 for target in targets}`
(line 253) — regardless of how many findings hit that target. -/
theorem C1_target_statistics_presence_marker (r : DetectionResult) (ts : String) :
    ((json_report_object r ts).lookupKey ("summary")).bind
        (fun j => j.lookupKey ("targetStatistics")) =
      some (Json.obj (targetStatistics r.targets)) ∧
    (∀ t, t ∈ r.targets → jsonLookup (targetStatistics r.targets) t = some (Json.num 1)) ∧
    (∀ t, t ∉ r.targets → jsonLookup (targetStatistics r.targets) t = none) := by
  refine ⟨rfl, ?_, ?_⟩
  · intro t ht
    rw [targetStatistics, lookup_map_one, if_pos ((mem_pyDictKeys _ _).mpr ht)]
  · intro t ht
    rw [targetStatistics, lookup_map_one,
      if_neg (fun hc => ht ((mem_pyDictKeys _ _).mp hc))]

/-- Witness for C1: the presence-marker conclusion instantiated on the
mock fixture's two targets. -/
theorem C1_witness :
    jsonLookup (targetStatistics ((create_mock_detection_result ("T")).targets))
        ("https://example.com/api/config") = some (Json.num 1) ∧
    jsonLookup (targetStatistics ((create_mock_detection_result ("T")).targets))
        ("file:///nowhere") = none :=
  ⟨(C1_target_statistics_presence_marker (create_mock_detection_result ("T")) ("G")).2.1
      _ (by decide),
   (C1_target_statistics_presence_marker (create_mock_detection_result ("T")) ("G")).2.2
      _ (by decide)⟩

/-- Counterexample for C1: on the mock fixture the target
`file:///tmp/test_config.conf` has two findings, yet `targetStatistics`
maps it to `1`, not to its finding count. -/
theorem C1_counterexample :
    jsonLookup (targetStatistics ((create_mock_detection_result ("T")).targets))
        ("file:///tmp/test_config.conf") = some (Json.num 1) ∧
    ((create_mock_detection_result ("T")).findings.filter
        (fun f => f.target == "file:///tmp/test_config.conf")).length = 2 ∧
    jsonLookup (targetStatistics ((create_mock_detection_result ("T")).targets))
        ("file:///tmp/test_config.conf") ≠
      some (Json.num (((create_mock_detection_result ("T")).findings.filter
        (fun f => f.target == "file:///tmp/test_config.conf")).length)) := by
  refine ⟨rfl, rfl, ?_⟩
  intro h
  rw [show ((create_mock_detection_result ("T")).findings.filter
      (fun f => f.target == "file:///tmp/test_config.conf")).length = 2 from rfl] at h
  rw [show jsonLookup (targetStatistics ((create_mock_detection_result ("T")).targets))
      ("file:///tmp/test_config.conf") = some (Json.num 1) from rfl] at h
  injection h with h2
  injection h2 with h3
  exact absurd h3 (by decide)

/-- C4 (amended): parsing the JSON renderer's output reproduces the
result's id, name, projectId, status, startTime, endTime, the full
findings list field-by-field, and the cached risk/category statistics;
`totalFindings` comes back as the recomputed findings count.  (The
remaining result fields — progress, targets, totalCount, finishCount,
createdAt, updatedAt — are not in the report; see the counterexample.) -/
theorem C4_json_reproduces_core_fields (r : DetectionResult) (ts : String) :
    jsonTopKeys (json_report_object r ts) = ["metadata", "summary", "findings"] ∧
    ((json_report_object r ts).lookupKey ("metadata")).map jsonTopKeys =
      some ["detectionId", "name", "projectId", "generatedAt", "totalFindings",
            "status", "startTime", "endTime"] ∧
    ((json_report_object r ts).lookupKey ("metadata")).bind
        (fun j => j.lookupKey ("detectionId")) = some (Json.str r.id) ∧
    ((json_report_object r ts).lookupKey ("metadata")).bind
        (fun j => j.lookupKey ("name")) = some (Json.str r.name) ∧
    ((json_report_object r ts).lookupKey ("metadata")).bind
        (fun j => j.lookupKey ("projectId")) = some (Json.str r.projectId) ∧
    ((json_report_object r ts).lookupKey ("metadata")).bind
        (fun j => j.lookupKey ("generatedAt")) = some (Json.str ts) ∧
    ((json_report_object r ts).lookupKey ("metadata")).bind
        (fun j => j.lookupKey ("totalFindings")) = some (Json.num r.findings.length) ∧
    ((json_report_object r ts).lookupKey ("metadata")).bind
        (fun j => j.lookupKey ("status")) = some (Json.str r.status) ∧
    ((json_report_object r ts).lookupKey ("metadata")).bind
        (fun j => j.lookupKey ("startTime")) = some (Json.str r.startTime) ∧
    ((json_report_object r ts).lookupKey ("metadata")).bind
        (fun j => j.lookupKey ("endTime")) = some (Json.str r.endTime) ∧
    (json_report_object r ts).lookupKey ("findings") =
      some (Json.arr (r.findings.map findingToJson)) ∧
    ((json_report_object r ts).lookupKey ("summary")).bind
        (fun j => j.lookupKey ("riskStatistics")) =
      some (Json.obj (r.summary.riskLevelCount.map (fun p => (p.1, Json.num p.2)))) ∧
    ((json_report_object r ts).lookupKey ("summary")).bind
        (fun j => j.lookupKey ("categoryStatistics")) =
      some (Json.obj (r.summary.categoryCount.map (fun p => (p.1, Json.num p.2)))) ∧
    (∀ f : Finding,
      (findingToJson f).lookupKey ("id") = some (Json.str f.id) ∧
      (findingToJson f).lookupKey ("target") = some (Json.str f.target) ∧
      (findingToJson f).lookupKey ("targetType") = some (Json.str f.targetType) ∧
      (findingToJson f).lookupKey ("rule") = some (Json.str f.rule) ∧
      (findingToJson f).lookupKey ("ruleName") = some (Json.str f.ruleName) ∧
      (findingToJson f).lookupKey ("category") = some (Json.str f.category) ∧
      (findingToJson f).lookupKey ("riskLevel") = some (Json.str f.riskLevel) ∧
      (findingToJson f).lookupKey ("pattern") = some (Json.str f.pattern) ∧
      (findingToJson f).lookupKey ("matchedText") = some (Json.str f.matchedText) ∧
      (findingToJson f).lookupKey ("context") = some (Json.str f.context) ∧
      (findingToJson f).lookupKey ("lineNumber") = f.lineNumber.map Json.num ∧
      (findingToJson f).lookupKey ("filePath") = some (Json.str f.filePath) ∧
      (findingToJson f).lookupKey ("fileSize") = some (Json.num f.fileSize) ∧
      (findingToJson f).lookupKey ("createdAt") = some (Json.str f.createdAt)) := by
  refine ⟨rfl, rfl, rfl, rfl, rfl, rfl, rfl, rfl, rfl, rfl, rfl, rfl, rfl, ?_⟩
  intro f
  refine ⟨rfl, rfl, rfl, rfl, rfl, rfl, rfl, rfl, rfl, rfl, ?_, ?_, ?_, ?_⟩ <;>
    rcases h : f.lineNumber with _ | n <;> rw [findingToJson, h] <;> rfl

/-- Counterexample for C4: on the mock fixture the serialized report's
key sets at every level are closed lists containing no `progress`,
`targets`, `totalCount`, `finishCount`, `createdAt` or `updatedAt`
entry, although the original result carries `progress = 100.0` and
`totalCount = finishCount = 2` — so parsing the output cannot
reproduce those fields. -/
theorem C4_counterexample :
    jsonTopKeys (json_report_object (create_mock_detection_result ("T")) ("G")) =
      ["metadata", "summary", "findings"] ∧
    ((json_report_object (create_mock_detection_result ("T")) ("G")).lookupKey
        ("metadata")).map jsonTopKeys =
      some ["detectionId", "name", "projectId", "generatedAt", "totalFindings",
            "status", "startTime", "endTime"] ∧
    ((json_report_object (create_mock_detection_result ("T")) ("G")).lookupKey
        ("summary")).map jsonTopKeys =
      some ["riskStatistics", "categoryStatistics", "targetStatistics"] ∧
    ((json_report_object (create_mock_detection_result ("T")) ("G")).lookupKey
        ("findings")).map (fun j => match j with
          | Json.arr l => l.map jsonTopKeys
          | _ => []) =
      some [["id", "target", "targetType", "rule", "ruleName", "category", "riskLevel",
             "pattern", "matchedText", "context", "lineNumber", "filePath", "fileSize",
             "createdAt"],
            ["id", "target", "targetType", "rule", "ruleName", "category", "riskLevel",
             "pattern", "matchedText", "context", "lineNumber", "filePath", "fileSize",
             "createdAt"],
            ["id", "target", "targetType", "rule", "ruleName", "category", "riskLevel",
             "pattern", "matchedText", "context", "lineNumber", "filePath", "fileSize",
             "createdAt"]] ∧
    (json_report_object (create_mock_detection_result ("T")) ("G")).lookupKey
        ("progress") = none ∧
    ((json_report_object (create_mock_detection_result ("T")) ("G")).lookupKey
        ("metadata")).bind (fun j => j.lookupKey ("progress")) = none ∧
    ((json_report_object (create_mock_detection_result ("T")) ("G")).lookupKey
        ("metadata")).bind (fun j => j.lookupKey ("totalCount")) = none ∧
    ((json_report_object (create_mock_detection_result ("T")) ("G")).lookupKey
        ("metadata")).bind (fun j => j.lookupKey ("finishCount")) = none ∧
    (json_report_object (create_mock_detection_result ("T")) ("G")).lookupKey
        ("targets") = none ∧
    (create_mock_detection_result ("T")).progress = "100.0" ∧
    (create_mock_detection_result ("T")).totalCount = 2 ∧
    (create_mock_detection_result ("T")).finishCount = 2 :=
  ⟨rfl, rfl, rfl, rfl, rfl, rfl, rfl, rfl, rfl, rfl, rfl, rfl⟩

theorem jsonDump_str (d : Nat) (s : String) :
    jsonDump d (Json.str s) = jsonQuote s := by
  simp only [jsonDump]

theorem jsonDump_num (d : Nat) (n : Nat) :
    jsonDump d (Json.num n) = toString n := by
  simp only [jsonDump]

theorem jsonDump_obj_cons (d : Nat) (kv : String × Json) (kvs : List (String × Json)) :
    jsonDump d (Json.obj (kv :: kvs)) =
      "\x7b\n" ++ jsonDumpObj (d + 1) (kv :: kvs) ++ "\n" ++ indentStr d ++ "\x7d" := by
  simp only [jsonDump]

theorem jsonDumpObj_pair (d : Nat) (k : String) (v : Json) (kv2 : String × Json)
    (kvs : List (String × Json)) :
    jsonDumpObj d ((k, v) :: kv2 :: kvs) =
      indentStr d ++ jsonQuote k ++ ": " ++ jsonDump d v ++ ",\n" ++
      jsonDumpObj d (kv2 :: kvs) := by
  simp only [jsonDumpObj]

theorem jsonDumpObj_last (d : Nat) (k : String) (v : Json) :
    jsonDumpObj d [(k, v)] = indentStr d ++ jsonQuote k ++ ": " ++ jsonDump d v := by
  simp only [jsonDumpObj]

set_option maxRecDepth 10000 in
set_option maxHeartbeats 1000000 in
/-- C8: for a fixed result, each timestamped renderer's output is a pair
of timestamp-independent strings around the timestamp slot, and the text
before the slot ends with the `生成时间: ` / `"generatedAt": ` label —
so two runs differ only inside that labeled region (lines 140, 244,
311).  The CSV renderer reads no clock at all: `generate_csv_report`
takes no timestamp and is literally the same string on both runs. -/
theorem C8_deterministic_modulo_timestamp (r : DetectionResult) :
    (∃ pH postH, (∀ t, generate_html_report r t = pH ++ (t ++ postH)) ∧
      (∃ q, pH = q ++ "生成时间: ")) ∧
    (∃ pT postT, (∀ t, generate_txt_report r t = pT ++ (t ++ postT)) ∧
      (∃ q, pT = q ++ "生成时间: ")) ∧
    (∃ pJ postJ, (∀ t, generate_json_report r t = pJ ++ (jsonQuote t ++ postJ)) ∧
      (∃ q, pJ = q ++ "\"generatedAt\": ")) := by
  refine ⟨⟨html_before_ts r, html_after_ts r, ?_, ?_⟩,
    ⟨txt_header_before_ts r, txt_after_ts r, ?_, ?_⟩, ?_⟩
  · intro t
    simp only [generate_html_report]
    exact String.append_assoc _ _ _
  · exact ⟨htmlTpl1 ++ r.name ++ htmlTpl2 ++ r.name ++ " | ", rfl⟩
  · intro t
    simp only [generate_txt_report]
    exact String.append_assoc _ _ _
  · exact ⟨equals64 ++ "\n" ++
      "                   敏感信息检测报告\n" ++
      equals64 ++ "\n" ++
      "\n" ++
      "检测信息:\n" ++
      "  检测名称: " ++ r.name ++ "\n" ++
      "  项目ID: " ++ r.projectId ++ "\n" ++
      "  开始时间: " ++ r.startTime ++ "\n" ++
      "  结束时间: " ++ r.endTime ++ "\n" ++
      "  检测状态: " ++ r.status ++ "\n" ++
      "  ", rfl⟩
  · refine ⟨"\x7b\n" ++ indentStr (0+1) ++ jsonQuote ("metadata") ++ ": " ++ "\x7b\n" ++
      indentStr (0+1+1) ++ jsonQuote ("detectionId") ++ ": " ++ jsonQuote r.id ++ ",\n" ++
      indentStr (0+1+1) ++ jsonQuote ("name") ++ ": " ++ jsonQuote r.name ++ ",\n" ++
      indentStr (0+1+1) ++ jsonQuote ("projectId") ++ ": " ++ jsonQuote r.projectId ++ ",\n" ++
      indentStr (0+1+1) ++ jsonQuote ("generatedAt") ++ ": ",
      ",\n" ++
      indentStr (0+1+1) ++ jsonQuote ("totalFindings") ++ ": " ++ toString (r.findings.length) ++ ",\n" ++
      indentStr (0+1+1) ++ jsonQuote ("status") ++ ": " ++ jsonQuote r.status ++ ",\n" ++
      indentStr (0+1+1) ++ jsonQuote ("startTime") ++ ": " ++ jsonQuote r.startTime ++ ",\n" ++
      indentStr (0+1+1) ++ jsonQuote ("endTime") ++ ": " ++ jsonQuote r.endTime ++
      "\n" ++ indentStr (0+1) ++ "\x7d" ++ ",\n" ++
      indentStr (0+1) ++ jsonQuote ("summary") ++ ": " ++ "\x7b\n" ++
      indentStr (0+1+1) ++ jsonQuote ("riskStatistics") ++ ": " ++
      jsonDump (0+1+1) (Json.obj (r.summary.riskLevelCount.map (fun p => (p.1, Json.num p.2)))) ++ ",\n" ++
      indentStr (0+1+1) ++ jsonQuote ("categoryStatistics") ++ ": " ++
      jsonDump (0+1+1) (Json.obj (r.summary.categoryCount.map (fun p => (p.1, Json.num p.2)))) ++ ",\n" ++
      indentStr (0+1+1) ++ jsonQuote ("targetStatistics") ++ ": " ++
      jsonDump (0+1+1) (Json.obj (targetStatistics r.targets)) ++
      "\n" ++ indentStr (0+1) ++ "\x7d" ++ ",\n" ++
      indentStr (0+1) ++ jsonQuote ("findings") ++ ": " ++
      jsonDump (0+1) (Json.arr (r.findings.map findingToJson)) ++
      "\n" ++ indentStr 0 ++ "\x7d", ?_, ?_⟩
    · intro t
      simp only [generate_json_report, json_report_object, jsonDump_obj_cons,
        jsonDumpObj_pair, jsonDumpObj_last, jsonDump_str, jsonDump_num]
      simp only [← String.append_assoc]
    · refine ⟨"\x7b\n" ++ indentStr (0+1) ++ jsonQuote ("metadata") ++ ": " ++ "\x7b\n" ++
        indentStr (0+1+1) ++ jsonQuote ("detectionId") ++ ": " ++ jsonQuote r.id ++ ",\n" ++
        indentStr (0+1+1) ++ jsonQuote ("name") ++ ": " ++ jsonQuote r.name ++ ",\n" ++
        indentStr (0+1+1) ++ jsonQuote ("projectId") ++ ": " ++ jsonQuote r.projectId ++ ",\n" ++
        indentStr (0+1+1), ?_⟩
      have e : jsonQuote ("generatedAt") ++ ": " = "\"generatedAt\": " := by decide
      rw [String.append_assoc, e]

/-- Witness for C9: the validation rule instantiated on a params object
with `name` and on the empty params object. -/
theorem C9_witness :
    validate [("name", Json.str ("World"))] = Json.obj [("success", Json.bool true)] ∧
    validate [] = Json.obj [("success", Json.bool false),
      ("error", Json.str ("Missing required parameter: name"))] :=
  ⟨(C9_validate_requires_name [("name", Json.str ("World"))]).2.mpr (by simp),
   (C9_validate_requires_name []).1.mpr (by simp)⟩
